import Mathlib

/-
Verification of the voice-interaction concurrency core of the Jarvis
assistant (core/listener.py, core/sleep_manager.py, core/speech_engine.py,
core/state.py).  The Python code is shallowly embedded: each method body
becomes a pure Lean function over an explicit state record, side effects
(speaking, playing sounds, dispatching to the command handler) are recorded
in an event trace, timestamps are rationals, and the external recognizer
backend is a parameter.
-/

namespace Jarvis

/-- Opaque identifier for an `sr.AudioData` buffer. -/
abbrev AudioData := Nat

/- ------------------------------------------------------------------
   Python string primitives used by listener.py, modelled on `List Char`:
   `str.lower`, `str.strip`, the `in` containment test, `str.startswith`,
   and `str.replace(old, "")` (leftmost, non-overlapping removal).
   ------------------------------------------------------------------ -/

/-- Python `str.lower()` (ASCII-level, via `Char.toLower`). -/
def pyLower (s : String) : String :=
  String.mk (s.data.map Char.toLower)

/-- Whitespace characters removed by Python `str.strip()`. -/
def isSpaceChar (c : Char) : Bool :=
  c = ' ' || c = '\t' || c = '\n' || c = '\r' || c = '\x0b' || c = '\x0c'

/-- Python `str.strip()`: drop leading and trailing whitespace. -/
def pyStrip (s : String) : String :=
  String.mk (((s.data.dropWhile isSpaceChar).reverse.dropWhile isSpaceChar).reverse)

/-- Helper for Python `sub in s`: does `pat` occur as a contiguous sublist? -/
def containsSubAux (pat : List Char) : List Char → Bool
  | [] => List.isPrefixOf pat []
  | c :: t => List.isPrefixOf pat (c :: t) || containsSubAux pat t

/-- Python `pat in s` substring containment. -/
def containsStr (pat s : String) : Bool :=
  containsSubAux pat.data s.data

/-- Python `s.startswith(pat)`. -/
def startsWithStr (pat s : String) : Bool :=
  List.isPrefixOf pat.data s.data

/-- Python `text.replace(pat, "")`: remove leftmost non-overlapping
occurrences, scanning left to right.  `fuel` bounds the recursion; the
wrapper passes the text length, which suffices because every step consumes
at least one character of the text (patterns in this code are nonempty). -/
def removeAllAux (pat : List Char) : Nat → List Char → List Char
  | 0, text => text
  | fuel + 1, text =>
    if !pat.isEmpty && List.isPrefixOf pat text then
      removeAllAux pat fuel (text.drop pat.length)
    else
      match text with
      | [] => []
      | c :: t => c :: removeAllAux pat fuel t

/-- Python `s.replace(pat, "")`. -/
def removeAll (pat s : String) : String :=
  String.mk (removeAllAux pat.data s.data.length s.data)

/- ------------------------------------------------------------------
   Configuration constants of listener.py / sleep_manager.py.
   ------------------------------------------------------------------ -/

/-- Wake-word list `_WAKE_WORDS` (listener.py lines 86-90). -/
def wakeWords : List String :=
  ["hey jarvis", "ok jarvis", "okay jarvis",
   "hi jarvis", "hello jarvis", "jarvis",
   "jarvis bolo", "jarvis haan"]

/-- Debounce window `self._wake_debounce_seconds = 1.0` (listener.py line 145). -/
def wakeDebounceSeconds : ℚ := 1

/-- Queue capacity of `Queue(maxsize=30)` (listener.py line 148). -/
def queueMaxsize : Nat := 30

/-- Session timeout `ACTIVE_INACTIVITY_DEFAULT = 20` (listener.py line 106). -/
def activeInactivityTimeout : ℚ := 20

/-- Sleep timeout `SLEEP_TIMEOUT = 120` (sleep_manager.py line 29). -/
def sleepTimeout : ℚ := 120

/-- Base energy threshold, 300, from `_DEFAULTS` (listener.py line 99). -/
def energyThresholdBase : Nat := 300

/-- Wake test of the consumer loop (listener.py line 274):
`any(w in normalized for w in _WAKE_WORDS)`. -/
def wakeHit (normalized : String) : Bool :=
  wakeWords.any (fun w => containsStr w normalized)

/-- Wake-word removal of the consumer loop (listener.py lines 280-282):
`for w in _WAKE_WORDS: cleaned = cleaned.replace(w, "").strip()`. -/
def cleanWake (normalized : String) : String :=
  wakeWords.foldl (fun acc w => pyStrip (removeAll w acc)) normalized

/- ------------------------------------------------------------------
   UtteranceQueue and the capture callback.
   ------------------------------------------------------------------ -/

/-- Model of `Queue.put_nowait` on a bounded queue: enqueue when below capacity,
otherwise raise `Full`; `_background_callback` swallows that exception
(`except Exception: pass`, listener.py lines 221-226), so the utterance is
dropped and the queue — and every other part of the listener state — is
left untouched.  The listener has no drop counter. -/
def backgroundCallback (q : List AudioData) (a : AudioData) : List AudioData :=
  if q.length < queueMaxsize then q ++ [a] else q

/-- A second definition that follows the SPEC's words rather than the code,
for comparison: "If the queue is full, the new utterance is dropped and a
counter is incremented".  The pair carries the hypothetical drop counter. -/
def backgroundCallbackSpec (q : List AudioData) (dropCount : Nat) (a : AudioData) :
    List AudioData × Nat :=
  if q.length < queueMaxsize then (q ++ [a], dropCount) else (q, dropCount + 1)

/- ------------------------------------------------------------------
   RecognitionAdapter: `_recognize_from_audio` (listener.py lines 300-314).
   The Google backend is a parameter: per attempt it either returns text or
   raises one of the exceptions the source distinguishes.
   ------------------------------------------------------------------ -/

/-- Exceptions that `recognize_google` may raise (listener.py lines 305-310):
`sr.UnknownValueError`, `sr.RequestError`, or any other `Exception`. -/
inductive GoogleErr where
  | unknownValueError
  | requestError
  | otherError
  deriving DecidableEq

/-- Embedding of `_recognize_from_audio(audio, retries)`: `None` on a falsy buffer;
otherwise `recognize_google(audio).lower().strip()` with `UnknownValueError`
and `RequestError` mapped to `None` and any other exception retried while
`retries > 0`, then `None`. -/
def recognizeFromAudio (b : Nat → Except GoogleErr String)
    (audio : Option AudioData) (retries : Nat) : Option String :=
  match audio with
  | none => none
  | some _ =>
    match b retries, retries with
    | .ok s, _ => some (pyStrip (pyLower s))
    | .error .unknownValueError, _ => none
    | .error .requestError, _ => none
    | .error .otherError, r + 1 => recognizeFromAudio b audio r
    | .error .otherError, 0 => none

/-- The same method with the exception channel kept explicit in the result
type: an arm that re-raised instead of handling would produce `.error`.
The source handles every arm, which `recognizeFromAudioE_ok` certifies. -/
def recognizeFromAudioE (b : Nat → Except GoogleErr String)
    (audio : Option AudioData) (retries : Nat) : Except GoogleErr (Option String) :=
  match audio with
  | none => .ok none
  | some _ =>
    match b retries, retries with
    | .ok s, _ => .ok (some (pyStrip (pyLower s)))
    | .error .unknownValueError, _ => .ok none
    | .error .requestError, _ => .ok none
    | .error .otherError, r + 1 => recognizeFromAudioE b audio r
    | .error .otherError, 0 => .ok none

/- ------------------------------------------------------------------
   Shared mutable state (core/state.py globals plus the JarvisListener
   instance fields touched by the modelled methods).
   ------------------------------------------------------------------ -/

/-- Values of `state.MODE` (state.py lines 15-20). -/
inductive SysMode where
  | active
  | sleepWait
  | sleep
  | wakeTransition
  | processing
  deriving DecidableEq

/-- The shared state triple of the spec plus the listener fields:
`state.MODE`, `state.LAST_INTERACTION`, `state.SYSTEM_SPEAKING`,
`self._is_speaking`, `self.active_mode`, `self.listening`,
`self._last_active_command_ts`, `self._last_wake_ts`, and the recognizer's
`energy_threshold`. -/
structure GState where
  mode : SysMode
  lastInteraction : Option ℚ
  systemSpeaking : Bool
  isSpeaking : Bool
  activeMode : Bool
  listening : Bool
  lastActiveCommandTs : ℚ
  lastWakeTs : ℚ
  energyThreshold : Nat
  deriving DecidableEq

/-- Observable actions of the modelled methods.  `recognizeCall a` marks an
invocation of `self._recognize_from_audio(a)` (the RecognitionAdapter);
`processCall c` marks entry into `self._process_command(c)`;
`dispatchHandler c` marks the `handler.process(command)` dispatch
(listener.py line 445); the branch events mark the listener's local skill
branches; `ack` marks the acknowledgment block of
`_enter_active_command_mode` (listener.py lines 343-355). -/
inductive Event where
  | recognizeCall (a : AudioData)
  | speak (line : String)
  | ack
  | playListening
  | processCall (cmd : String)
  | searchBranch (cmd : String)
  | typingBranch (cmd : String)
  | tabBranch (cmd : String)
  | openBranch (cmd : String)
  | mediaBranch (cmd : String)
  | dispatchHandler (cmd : String)
  | enterActiveThread (cleaned : String)
  | wakeSideEffect
  | sleepProcedure
  | hookCall (b : Bool)
  deriving DecidableEq

/- ------------------------------------------------------------------
   `_process_command` (listener.py lines 394-448).
   ------------------------------------------------------------------ -/

/-- Keyword lists of the `_process_command` branches (listener.py
lines 407, 416, 428-429, 439). -/
def searchKeys : List String := ["search", "find", "look up", "dhund", "search kar"]

def typeKeys : List String := ["type", "type this", "type that", "type message", "type kar"]

def tabKeys : List String :=
  ["new tab", "open tab", "close tab", "next tab", "previous tab", "prev tab", "switch tab"]

def mediaKeys : List String := ["play", "pause", "volume up", "volume down", "mute"]

/-- The spoken rejection while `state.MODE == "sleep"` (listener.py
line 400). -/
def wakeMeFallbackLine : String := "Say ‘Hey Jarvis’ to wake me completely."

/-- Embedding of `_process_command(command)`.  The local skill branches (search, typing,
tabs, open, media) act on the desktop and speak but touch none of the
shared state modelled here; they are recorded as branch events.
`handler.process` (the final dispatch) writes `state.LAST_INTERACTION`
only on its AI-fallback path (command_handler.py line 650), which depends
on the environment; that write is abstracted as the parameter `hLast`. -/
def processCommand (hLast : String → Option ℚ → Option ℚ)
    (g : GState) (command : String) : GState × List Event :=
  if command = "" then
    (g, [.processCall command, .speak "Sorry, I didn’t catch that."])
  else if g.mode = SysMode.sleep then
    (g, [.processCall command, .speak wakeMeFallbackLine])
  else
    let cmd := pyStrip (pyLower command)
    if searchKeys.any (fun k => containsStr k cmd) then
      (g, [.processCall command, .searchBranch cmd])
    else if typeKeys.any (fun k => containsStr k cmd) then
      (g, [.processCall command, .typingBranch cmd])
    else if tabKeys.any (fun k => containsStr k cmd) then
      (g, [.processCall command, .tabBranch cmd])
    else if startsWithStr "open " cmd || startsWithStr "launch " cmd then
      (g, [.processCall command, .openBranch cmd])
    else if mediaKeys.any (fun k => containsStr k cmd) then
      (g, [.processCall command, .mediaBranch cmd])
    else
      ({ g with lastInteraction := hLast command g.lastInteraction },
       [.processCall command, .dispatchHandler command])

/- ------------------------------------------------------------------
   `_wake_from_sleep`, `_exit_active_mode`, the consumer loop body, and
   `_enter_active_command_mode` (listener.py).
   ------------------------------------------------------------------ -/

/-- Embedding of `_wake_from_sleep` (listener.py lines 716-749): no-op unless
`state.MODE == "sleep"`; otherwise plays the wake side effects, then sets
`state.MODE = "active"` and `state.LAST_INTERACTION = now`. -/
def wakeFromSleep (g : GState) (now : ℚ) : GState × List Event :=
  if g.mode ≠ SysMode.sleep then (g, [])
  else ({ g with mode := SysMode.active, lastInteraction := some now }, [.wakeSideEffect])

/-- Embedding of `_exit_active_mode` (listener.py lines 378-387). -/
def exitActiveMode (g : GState) (now : ℚ) : GState :=
  if !g.activeMode then g
  else { g with listening := false, activeMode := false, lastInteraction := some now }

/-- The `Empty` branch of the consumer loop (listener.py lines 239-246):
on an idle tick, leave active mode after `active_inactivity_timeout`. -/
def consumerIdleTick (g : GState) (now : ℚ) : GState :=
  if g.activeMode && activeInactivityTimeout < now - g.lastActiveCommandTs then
    exitActiveMode g now
  else g

/-- One pass of `_audio_consumer_loop` over a dequeued utterance
(listener.py lines 248-297).  The speaking-flag guard (line 249) runs
before recognition; in active mode the command timestamp is refreshed and
the text processed; in wake mode the utterance passes the wake test, the
debounce, the wake-word removal, the sleep check, and spawns
`_enter_active_command_mode(cleaned)` (recorded as `enterActiveThread`). -/
def consumeAudio (b : Nat → Except GoogleErr String)
    (hLast : String → Option ℚ → Option ℚ)
    (g : GState) (a : AudioData) (now : ℚ) : GState × List Event :=
  if g.systemSpeaking || g.isSpeaking then (g, [])
  else
    match recognizeFromAudio b (some a) 1 with
    | none => (g, [.recognizeCall a])
    | some text =>
      if text = "" then (g, [.recognizeCall a])
      else
        let normalized := pyStrip (pyLower text)
        if g.activeMode then
          let g1 := { g with lastActiveCommandTs := now }
          let r := processCommand hLast g1 normalized
          (r.1, .recognizeCall a :: r.2)
        else if wakeHit normalized then
          if now - g.lastWakeTs < wakeDebounceSeconds then (g, [.recognizeCall a])
          else
            let g1 := { g with lastWakeTs := now }
            let cleaned := cleanWake normalized
            let r := if g1.mode = SysMode.sleep then wakeFromSleep g1 now else (g1, [])
            (r.1, .recognizeCall a :: r.2 ++ [.enterActiveThread cleaned])
        else (g, [.recognizeCall a])

/-- Entry portion of `_enter_active_command_mode(initial_command)`
(listener.py lines 317-362): under the active-mode lock, an already-active
session only processes a nonempty leftover command and returns (no
acknowledgment, no re-entry); otherwise the session is activated,
`state.LAST_INTERACTION` refreshed, the listening sound and acknowledgment
line played (the `ack` event covers lines 343-355 for both the verified
and the limited-mode line), and a nonempty leftover command processed.
The trailing wait loop (lines 364-375) only sleeps until `_exit_active_mode`
runs and is modelled by `exitActiveMode`. -/
def enterActiveCommandMode (hLast : String → Option ℚ → Option ℚ)
    (g : GState) (initialCommand : String) (now : ℚ) : GState × List Event :=
  if g.activeMode then
    if initialCommand ≠ "" then processCommand hLast g initialCommand
    else (g, [])
  else
    let g1 := { g with activeMode := true, listening := true,
                       lastActiveCommandTs := now, lastInteraction := some now }
    let r := if initialCommand ≠ "" then processCommand hLast g1 initialCommand
             else (g1, [])
    (r.1, [.playListening, .ack] ++ r.2)

/-- Embedding of `_listen_for_short_text` (listener.py lines 477-488), iterated over the
utterances it dequeues before its deadline: each one is passed to
`_recognize_from_audio` and the first recognized text is returned.  The
method takes the listener state but — unlike the consumer loop — performs
no speaking-flag check before recognition. -/
def listenForShortText (g : GState) (b : Nat → Except GoogleErr String) :
    List AudioData → Option String × List Event
  | [] => (none, [])
  | a :: rest =>
    match recognizeFromAudio b (some a) 1 with
    | some t => (some t, [.recognizeCall a])
    | none =>
      let r := listenForShortText g b rest
      (r.1, .recognizeCall a :: r.2)

/- ------------------------------------------------------------------
   `set_speaking` and `JarvisVoice.speak` (speech_engine.py).
   ------------------------------------------------------------------ -/

/-- Embedding of `JarvisListener.set_speaking` (listener.py lines 761-772). -/
def setSpeaking (g : GState) (speaking : Bool) : GState :=
  { g with isSpeaking := speaking, systemSpeaking := speaking,
           energyThreshold :=
             if speaking then energyThresholdBase * 3 else energyThresholdBase }

/-- Outcome of a playback step: the Edge-TTS call returns `True`, returns
`False`, or raises out of `_run_async`; the offline engine returns or
raises. -/
inductive PlayOutcome where
  | success
  | failure
  | raised
  deriving DecidableEq

/-- Embedding of `JarvisVoice.speak(text)` (speech_engine.py lines 142-177).  Empty or
whitespace text returns immediately.  Otherwise `state.SYSTEM_SPEAKING` is
set and the registered listener hook called with `True`; the `try` body
attempts Edge TTS then the offline engine; the `finally` block clears
`state.SYSTEM_SPEAKING` and calls the hook with `False` on every exit path
— return and exception alike (the returned Bool records whether the body's
exception escapes past the `finally`).  `hookRegistered` models
`LISTENER_HOOK` holding `JarvisListener.set_speaking`. -/
def jarvisVoiceSpeak (g : GState) (hookRegistered : Bool) (text : String)
    (onlineEnabled : Bool) (online offline : PlayOutcome) :
    GState × List Event × Bool :=
  if pyStrip text = "" then (g, [], false)
  else
    let g1 := { g with systemSpeaking := true }
    let g2 := if hookRegistered then setSpeaking g1 true else g1
    let ev1 := if hookRegistered then [Event.hookCall true] else []
    let bodyRaised :=
      if onlineEnabled then
        match online with
        | .raised => true
        | .success => false
        | .failure => offline == PlayOutcome.raised
      else offline == PlayOutcome.raised
    let g3 := { g2 with systemSpeaking := false }
    let g4 := if hookRegistered then setSpeaking g3 false else g3
    let ev2 := if hookRegistered then [Event.hookCall false] else []
    (g4, ev1 ++ ev2, bodyRaised)

/- ------------------------------------------------------------------
   SleepManager (sleep_manager.py).
   ------------------------------------------------------------------ -/

/-- Embedding of `_do_sleep_procedure` (sleep_manager.py lines 30-63): no-op when the
mode is already `"sleep"`, otherwise set it and play the sleep effects
(`line` is the randomly chosen sleep line). -/
def doSleepProcedure (g : GState) (line : String) : GState × List Event :=
  if g.mode = SysMode.sleep then (g, [])
  else ({ g with mode := SysMode.sleep }, [.sleepProcedure, .speak line])

/-- One tick of `SleepManager._loop` (sleep_manager.py lines 132-154):
skip when `state.LAST_INTERACTION is None` or the mode is already
`"sleep"`; otherwise run the sleep procedure once the idle time reaches
`SLEEP_TIMEOUT`. -/
def sleepLoopTick (g : GState) (now : ℚ) (line : String) : GState × List Event :=
  match g.lastInteraction with
  | none => (g, [])
  | some last =>
    if g.mode = SysMode.sleep then (g, [])
    else if sleepTimeout ≤ now - last then doSleepProcedure g line
    else (g, [])

/- ------------------------------------------------------------------
   WakePhraseDebouncer (listener.py lines 274-278), isolated: the state is
   `self._last_wake_ts` (initially `0.0`), a detection at `t` is suppressed
   when `t - last < 1.0` and otherwise accepted, updating the state.
   ------------------------------------------------------------------ -/

/-- One debounce decision: `(accepted, new _last_wake_ts)`. -/
def debounceStep (lastWakeTs t : ℚ) : Bool × ℚ :=
  if t - lastWakeTs < wakeDebounceSeconds then (false, lastWakeTs)
  else (true, t)

/-- The `_last_wake_ts` value after a sequence of detections. -/
def debounceAfter : ℚ → List ℚ → ℚ
  | d, [] => d
  | d, t :: ts => debounceAfter (if t - d < wakeDebounceSeconds then d else t) ts

/-- The timestamps the debouncer accepted out of a sequence of detections. -/
def acceptedRun : ℚ → List ℚ → List ℚ
  | _, [] => []
  | d, t :: ts =>
    if t - d < wakeDebounceSeconds then acceptedRun d ts
    else t :: acceptedRun t ts

/- ------------------------------------------------------------------
   Concrete fixtures for witnesses and counterexamples.
   ------------------------------------------------------------------ -/

/-- A baseline listener/global state: awake, idle, not speaking. -/
def gBase : GState :=
  { mode := SysMode.active, lastInteraction := none, systemSpeaking := false,
    isSpeaking := false, activeMode := false, listening := false,
    lastActiveCommandTs := 0, lastWakeTs := 0, energyThreshold := 300 }

/-- A recognizer backend that always returns the text `s`. -/
def bOk (s : String) : Nat → Except GoogleErr String := fun _ => Except.ok s

/-- A handler abstraction that leaves `state.LAST_INTERACTION` unchanged. -/
def hKeep : String → Option ℚ → Option ℚ := fun _ o => o

/- ------------------------------------------------------------------
   General lemmas about `_process_command`.
   ------------------------------------------------------------------ -/

/-- Every branch of `_process_command` returns the incoming state except,
possibly, for the `state.LAST_INTERACTION` field (written only by the
`handler.process` dispatch). -/
theorem processCommand_state (hLast : String → Option ℚ → Option ℚ)
    (g : GState) (c : String) :
    ∃ li, (processCommand hLast g c).1 = { g with lastInteraction := li } := by
  unfold processCommand
  dsimp only
  repeat' split
  all_goals first
    | exact ⟨g.lastInteraction, rfl⟩
    | exact ⟨hLast c g.lastInteraction, rfl⟩

/-- No branch of `_process_command` plays the listening sound or speaks the
activation acknowledgment. -/
theorem processCommand_no_ack (hLast : String → Option ℚ → Option ℚ)
    (g : GState) (c : String) :
    Event.ack ∉ (processCommand hLast g c).2 ∧
    Event.playListening ∉ (processCommand hLast g c).2 := by
  unfold processCommand
  dsimp only
  repeat' split
  all_goals constructor <;> simp

/-- Every branch of `_process_command` records its entry. -/
theorem processCommand_mem (hLast : String → Option ℚ → Option ℚ)
    (g : GState) (c : String) :
    Event.processCall c ∈ (processCommand hLast g c).2 := by
  unfold processCommand
  dsimp only
  repeat' split
  all_goals simp

/-- Two fields `_process_command` never writes. -/
theorem processCommand_keeps (hLast : String → Option ℚ → Option ℚ)
    (g : GState) (c : String) :
    (processCommand hLast g c).1.activeMode = g.activeMode ∧
    (processCommand hLast g c).1.lastActiveCommandTs = g.lastActiveCommandTs := by
  obtain ⟨li, h⟩ := processCommand_state hLast g c
  rw [h]
  exact ⟨rfl, rfl⟩

/- ------------------------------------------------------------------
   Claim C1.
   ------------------------------------------------------------------ -/

/-- Claim C1 (amended): on the consumer-loop path (`_audio_consumer_loop`),
every utterance dequeued while the SpeakingFlag (`state.SYSTEM_SPEAKING` or
`self._is_speaking`) is set is discarded — no state change, no event, and in
particular no invocation of the RecognitionAdapter.  The claim's stronger
assertion that this holds on every path that consumes from the
UtteranceQueue is refuted by the counterexample: `_listen_for_short_text`
consumes from the same queue with no speaking-flag check. -/
theorem claim_C1_consumer_discards_while_speaking
    (b : Nat → Except GoogleErr String) (hLast : String → Option ℚ → Option ℚ)
    (g : GState) (a : AudioData) (now : ℚ)
    (h : g.systemSpeaking = true ∨ g.isSpeaking = true) :
    consumeAudio b hLast g a now = (g, []) := by
  unfold consumeAudio
  have hb : (g.systemSpeaking || g.isSpeaking) = true := by
    rcases h with h | h <;> simp [h]
  rw [if_pos hb]

/-- Concrete instance of `claim_C1_consumer_discards_while_speaking`. -/
theorem claim_C1_witness :
    ({ gBase with systemSpeaking := true } : GState).systemSpeaking = true ∧
    consumeAudio (bOk "hello") hKeep { gBase with systemSpeaking := true } 5 40 =
      ({ gBase with systemSpeaking := true }, []) :=
  ⟨rfl, claim_C1_consumer_discards_while_speaking (bOk "hello") hKeep
    { gBase with systemSpeaking := true } 5 40 (Or.inl rfl)⟩

/-- Counterexample to claim C1 as stated: with the SpeakingFlag set,
`_listen_for_short_text` still dequeues the utterance and invokes the
RecognitionAdapter on it, returning its text. -/
theorem claim_C1_counterexample_short_text_recognizes_while_speaking :
    ({ gBase with systemSpeaking := true } : GState).systemSpeaking = true ∧
    listenForShortText { gBase with systemSpeaking := true } (bOk "hello") [5] =
      (some "hello", [Event.recognizeCall 5]) := by
  constructor
  · rfl
  · rfl

/- ------------------------------------------------------------------
   Claim C2.
   ------------------------------------------------------------------ -/

/-- Claim C2 (amended): every command recognized while the session is
active refreshes the listener's active-session timestamp
`self._last_active_command_ts` to the current time.  The claim's
identification of this timestamp with the one the InactivityMonitor reads
for its sleep-threshold comparison (`state.LAST_INTERACTION` in
`SleepManager._loop`) fails on the code: the counterexample shows a command
that leaves `state.LAST_INTERACTION` untouched. -/
theorem claim_C2_command_refreshes_active_ts
    (b : Nat → Except GoogleErr String) (hLast : String → Option ℚ → Option ℚ)
    (g : GState) (a : AudioData) (now : ℚ) (t : String)
    (h1 : g.systemSpeaking = false) (h2 : g.isSpeaking = false)
    (h3 : g.activeMode = true)
    (h4 : recognizeFromAudio b (some a) 1 = some t) (h5 : t ≠ "") :
    (consumeAudio b hLast g a now).1.lastActiveCommandTs = now := by
  simp only [consumeAudio, h1, h2, h3, h4, h5, Bool.or_self, Bool.false_eq_true,
    if_false, ne_eq, not_false_eq_true, if_true, if_neg h5]
  rw [(processCommand_keeps hLast _ _).2]

/-- Concrete instance of `claim_C2_command_refreshes_active_ts`. -/
theorem claim_C2_witness :
    (consumeAudio (bOk "volume up") hKeep { gBase with activeMode := true }
      7 200).1.lastActiveCommandTs = 200 :=
  claim_C2_command_refreshes_active_ts (bOk "volume up") hKeep
    { gBase with activeMode := true } 7 200 "volume up" rfl rfl rfl rfl (by decide)

/-- Counterexample to claim C2 as stated: processing the in-session command
"volume up" (handled by the listener's media branch) at time 200 refreshes
`_last_active_command_ts` but leaves `state.LAST_INTERACTION` — the value
`SleepManager._loop` compares against the sleep threshold — at its stale
value 100 instead of the current time. -/
theorem claim_C2_counterexample_media_command_keeps_last_interaction :
    (consumeAudio (bOk "volume up") hKeep
      { gBase with activeMode := true, lastInteraction := some 100 }
      7 200).1.lastInteraction = some 100 ∧
    (consumeAudio (bOk "volume up") hKeep
      { gBase with activeMode := true, lastInteraction := some 100 }
      7 200).1.lastActiveCommandTs = 200 ∧
    Event.mediaBranch "volume up" ∈
      (consumeAudio (bOk "volume up") hKeep
        { gBase with activeMode := true, lastInteraction := some 100 } 7 200).2 := by
  refine ⟨rfl, rfl, by decide⟩

/- ------------------------------------------------------------------
   Claim C3.
   ------------------------------------------------------------------ -/

/-- State of the debouncer grows monotonically along a time-ordered run. -/
theorem debounceAfter_ge (d : ℚ) (ts : List ℚ)
    (hs : List.Sorted (· ≤ ·) ts) (hd : ∀ x ∈ ts, d ≤ x) :
    d ≤ debounceAfter d ts := by
  induction ts generalizing d with
  | nil => simp [debounceAfter]
  | cons t ts ih =>
    rw [List.sorted_cons] at hs
    unfold debounceAfter
    by_cases hc : t - d < wakeDebounceSeconds
    · rw [if_pos hc]
      exact ih d hs.2 (fun x hx => hd x (List.mem_cons_of_mem t hx))
    · rw [if_neg hc]
      have h1 : d ≤ t := hd t (List.mem_cons_self t ts)
      exact le_trans h1 (ih t hs.2 hs.1)

/-- Along a time-ordered run, every accepted timestamp is bounded by the
final `_last_wake_ts`. -/
theorem acceptedRun_le_after (d : ℚ) (ts : List ℚ)
    (hs : List.Sorted (· ≤ ·) ts) (hd : ∀ x ∈ ts, d ≤ x) :
    ∀ y ∈ acceptedRun d ts, y ≤ debounceAfter d ts := by
  induction ts generalizing d with
  | nil => intro y hy; simp [acceptedRun] at hy
  | cons t ts ih =>
    rw [List.sorted_cons] at hs
    intro y hy
    unfold acceptedRun at hy
    unfold debounceAfter
    by_cases hc : t - d < wakeDebounceSeconds
    · rw [if_pos hc] at hy ⊢
      exact ih d hs.2 (fun x hx => hd x (List.mem_cons_of_mem t hx)) y hy
    · rw [if_neg hc] at hy ⊢
      rcases List.mem_cons.mp hy with h | h
      · subst h
        exact debounceAfter_ge y ts hs.2 hs.1
      · exact ih t hs.2 hs.1 y h

/-- The `_last_wake_ts` after a run is its initial value or an accepted
timestamp. -/
theorem debounceAfter_mem (d : ℚ) (ts : List ℚ) :
    debounceAfter d ts = d ∨ debounceAfter d ts ∈ acceptedRun d ts := by
  induction ts generalizing d with
  | nil => left; rfl
  | cons t ts ih =>
    unfold debounceAfter acceptedRun
    by_cases hc : t - d < wakeDebounceSeconds
    · rw [if_pos hc, if_pos hc]
      exact ih d
    · rw [if_neg hc, if_neg hc]
      rcases ih t with h | h
      · right
        rw [h]
        exact List.mem_cons_self t (acceptedRun t ts)
      · right
        exact List.mem_cons_of_mem t h

/-- Claim C3: after any time-ordered history `pre` of wake detections with
epoch-valued timestamps (all at least the 1-second window, as `time.time()`
values are), the debouncer accepts a new detection at time `t` if and only
if no previously accepted detection lies within the debounce window before
`t`; and a suppressed detection leaves `_last_wake_ts` unchanged, so
suppressed detections do not extend the window. -/
theorem claim_C3_debounce_accepts_iff_no_recent_accept
    (pre : List ℚ) (t : ℚ)
    (hs : List.Sorted (· ≤ ·) (pre ++ [t]))
    (h1 : ∀ x ∈ pre ++ [t], 1 ≤ x) :
    ((debounceStep (debounceAfter 0 pre) t).1 = true ↔
      ∀ u ∈ acceptedRun 0 pre, wakeDebounceSeconds ≤ t - u) ∧
    ((debounceStep (debounceAfter 0 pre) t).1 = false →
      (debounceStep (debounceAfter 0 pre) t).2 = debounceAfter 0 pre) := by
  have hp : List.Pairwise (· ≤ ·) (pre ++ [t]) := hs
  rw [List.pairwise_append] at hp
  have hpre : List.Sorted (· ≤ ·) pre := hp.1
  have hpt : ∀ x ∈ pre, x ≤ t := fun x hx => hp.2.2 x hx t (by simp)
  have h0 : ∀ x ∈ pre, (0:ℚ) ≤ x := fun x hx =>
    le_trans zero_le_one (h1 x (List.mem_append_left _ hx))
  have ht1 : (1:ℚ) ≤ t := h1 t (List.mem_append_right _ (by simp))
  constructor
  · constructor
    · intro hacc u hu
      have hus : u ≤ debounceAfter 0 pre := acceptedRun_le_after 0 pre hpre h0 u hu
      have hstep : ¬ (t - debounceAfter 0 pre < wakeDebounceSeconds) := by
        intro hlt
        unfold debounceStep at hacc
        rw [if_pos hlt] at hacc
        exact Bool.false_ne_true hacc
      have hge : wakeDebounceSeconds ≤ t - debounceAfter 0 pre := not_lt.mp hstep
      have : t - debounceAfter 0 pre ≤ t - u := by linarith
      linarith
    · intro hall
      unfold debounceStep
      rw [if_neg ?ne]
      case ne =>
        rcases debounceAfter_mem 0 pre with h | h
        · rw [h]
          rw [not_lt]
          unfold wakeDebounceSeconds
          linarith
        · exact not_lt.mpr (hall _ h)
  · intro hf
    by_cases hc : t - debounceAfter 0 pre < wakeDebounceSeconds
    · unfold debounceStep
      rw [if_pos hc]
    · unfold debounceStep at hf
      rw [if_neg hc] at hf
      exact absurd hf (by simp)

/-- Concrete instance of `claim_C3_debounce_accepts_iff_no_recent_accept`. -/
theorem claim_C3_witness :
    ((debounceStep (debounceAfter 0 [2]) 4).1 = true ↔
      ∀ u ∈ acceptedRun 0 [2], wakeDebounceSeconds ≤ (4:ℚ) - u) ∧
    ((debounceStep (debounceAfter 0 [2]) 4).1 = false →
      (debounceStep (debounceAfter 0 [2]) 4).2 = debounceAfter 0 [2]) :=
  claim_C3_debounce_accepts_iff_no_recent_accept [2] 4 (by decide) (by decide)

/- ------------------------------------------------------------------
   Claim C4.
   ------------------------------------------------------------------ -/

/-- Claim C4 (amended): a push onto a full UtteranceQueue (capacity 30)
drops the new utterance, leaving the queue — and with it the whole listener
state — unchanged, and a push onto a non-full queue appends the utterance
unchanged; the callback is a total function of the state, hence never
blocks.  No drop counter is incremented: the code has none (the `Full`
exception is swallowed by `pass`), which the counterexample records. -/
theorem claim_C4_full_queue_drops_without_counter (q : List AudioData) (a : AudioData) :
    (queueMaxsize ≤ q.length → backgroundCallback q a = q) ∧
    (q.length < queueMaxsize → backgroundCallback q a = q ++ [a]) := by
  constructor
  · intro h
    unfold backgroundCallback
    rw [if_neg (by omega)]
  · intro h
    unfold backgroundCallback
    rw [if_pos h]

/-- Concrete instance of `claim_C4_full_queue_drops_without_counter`. -/
theorem claim_C4_witness :
    backgroundCallback [1, 2, 3] 7 = [1, 2, 3] ++ [7] :=
  (claim_C4_full_queue_drops_without_counter [1, 2, 3] 7).2 (by decide)

/-- Counterexample to claim C4 as stated: on a full queue the callback
returns a state identical to its input — nothing is incremented anywhere —
whereas the spec-following variant increments its drop counter. -/
theorem claim_C4_counterexample_no_drop_counter :
    backgroundCallback (List.replicate 30 0) 7 = List.replicate 30 0 ∧
    (backgroundCallbackSpec (List.replicate 30 0) 0 7).2 = 1 := by
  constructor
  · rfl
  · rfl

/- ------------------------------------------------------------------
   Claim C5.
   ------------------------------------------------------------------ -/

/-- Claim C5: invoking the wake-activation path
(`_enter_active_command_mode`) while already in an active session is
idempotent on session state: `active_mode` stays true, no acknowledgment
line and no listening sound are emitted (no re-entry into activation), the
call is a complete no-op when no leftover command is embedded, and a
nonempty embedded leftover command is still processed. -/
theorem claim_C5_wake_activation_idempotent
    (hLast : String → Option ℚ → Option ℚ) (g : GState) (initial : String) (now : ℚ)
    (h : g.activeMode = true) :
    (enterActiveCommandMode hLast g initial now).1.activeMode = true ∧
    Event.ack ∉ (enterActiveCommandMode hLast g initial now).2 ∧
    Event.playListening ∉ (enterActiveCommandMode hLast g initial now).2 ∧
    (initial = "" → enterActiveCommandMode hLast g initial now = (g, [])) ∧
    (initial ≠ "" →
      Event.processCall initial ∈ (enterActiveCommandMode hLast g initial now).2) := by
  by_cases hi : initial = ""
  · subst hi
    have hr : enterActiveCommandMode hLast g "" now = (g, []) := by
      simp [enterActiveCommandMode, h]
    rw [hr]
    exact ⟨h, by simp, by simp, fun _ => rfl, fun hc => absurd rfl hc⟩
  · have hr : enterActiveCommandMode hLast g initial now = processCommand hLast g initial := by
      simp [enterActiveCommandMode, h, hi]
    rw [hr]
    obtain ⟨li, hst⟩ := processCommand_state hLast g initial
    exact ⟨by rw [hst]; exact h, (processCommand_no_ack hLast g initial).1,
      (processCommand_no_ack hLast g initial).2, fun hc => absurd hc hi,
      fun _ => processCommand_mem hLast g initial⟩

/-- Concrete instance of `claim_C5_wake_activation_idempotent`. -/
theorem claim_C5_witness :
    (enterActiveCommandMode hKeep { gBase with activeMode := true }
      "open chrome" 60).1.activeMode = true ∧
    Event.ack ∉ (enterActiveCommandMode hKeep { gBase with activeMode := true }
      "open chrome" 60).2 ∧
    Event.playListening ∉ (enterActiveCommandMode hKeep { gBase with activeMode := true }
      "open chrome" 60).2 ∧
    ("open chrome" = "" →
      enterActiveCommandMode hKeep { gBase with activeMode := true } "open chrome" 60 =
        ({ gBase with activeMode := true }, [])) ∧
    ("open chrome" ≠ "" →
      Event.processCall "open chrome" ∈
        (enterActiveCommandMode hKeep { gBase with activeMode := true } "open chrome" 60).2) :=
  claim_C5_wake_activation_idempotent hKeep { gBase with activeMode := true }
    "open chrome" 60 rfl

/- ------------------------------------------------------------------
   Claim C6.
   ------------------------------------------------------------------ -/

/-- Claim C6: for nonempty text, on every exit path of `JarvisVoice.speak`
— for every combination of online/offline playback outcomes, including an
exception raised out of playback and a failed online backend — the final
`state.SYSTEM_SPEAKING` is false, and when the listener hook is registered
the end-speaking hook is invoked with `False` and the listener's
`_is_speaking` is cleared, so the flag never remains stuck true after
playback ends. -/
theorem claim_C6_speak_clears_flag_on_all_paths
    (g : GState) (hookRegistered : Bool) (text : String)
    (onlineEnabled : Bool) (online offline : PlayOutcome)
    (ht : pyStrip text ≠ "") :
    (jarvisVoiceSpeak g hookRegistered text onlineEnabled online offline).1.systemSpeaking
      = false ∧
    (hookRegistered = true →
      (jarvisVoiceSpeak g hookRegistered text onlineEnabled online offline).1.isSpeaking
        = false ∧
      Event.hookCall false ∈
        (jarvisVoiceSpeak g hookRegistered text onlineEnabled online offline).2.1) := by
  unfold jarvisVoiceSpeak
  rw [if_neg ht]
  cases hookRegistered <;> simp [setSpeaking]

/-- Concrete instance of `claim_C6_speak_clears_flag_on_all_paths`. -/
theorem claim_C6_witness :
    (jarvisVoiceSpeak gBase true "Done." true PlayOutcome.raised
      PlayOutcome.raised).1.systemSpeaking = false ∧
    (true = true →
      (jarvisVoiceSpeak gBase true "Done." true PlayOutcome.raised
        PlayOutcome.raised).1.isSpeaking = false ∧
      Event.hookCall false ∈
        (jarvisVoiceSpeak gBase true "Done." true PlayOutcome.raised
          PlayOutcome.raised).2.1) :=
  claim_C6_speak_clears_flag_on_all_paths gBase true "Done." true
    PlayOutcome.raised PlayOutcome.raised (by decide)

/- ------------------------------------------------------------------
   Claim C7.
   ------------------------------------------------------------------ -/

/-- Claim C7: a tick of `SleepManager._loop` never runs the forced sleep
transition while the mode is already sleep or while
`state.LAST_INTERACTION` is unset: on such a tick all shared state is left
unchanged and no effect is emitted. -/
theorem claim_C7_sleep_tick_guards (g : GState) (now : ℚ) (line : String) :
    (g.mode = SysMode.sleep → sleepLoopTick g now line = (g, [])) ∧
    (g.lastInteraction = none → sleepLoopTick g now line = (g, [])) := by
  constructor
  · intro h
    unfold sleepLoopTick
    cases hl : g.lastInteraction with
    | none => rfl
    | some last => simp [h]
  · intro h
    unfold sleepLoopTick
    rw [h]

/-- Concrete instance of `claim_C7_sleep_tick_guards`. -/
theorem claim_C7_witness :
    sleepLoopTick { gBase with mode := SysMode.sleep, lastInteraction := some 3 }
      500 "resting" =
      ({ gBase with mode := SysMode.sleep, lastInteraction := some 3 }, []) :=
  (claim_C7_sleep_tick_guards _ 500 "resting").1 rfl

/- ------------------------------------------------------------------
   Claim C8.
   ------------------------------------------------------------------ -/

/-- Claim C8 (amended): while the mode is sleep, a recognized non-wake
utterance is never dispatched to the CommandRouter on either consuming
path; when it arrives in active mode, `_process_command` rejects it with
exactly the spoken wake-me fallback; when it arrives in wake-word mode the
utterance is ignored silently — no fallback is spoken, which refutes the
claim's universal "rejected with the spoken fallback" (see the
counterexample). -/
theorem claim_C8_sleep_rejects_without_dispatch
    (b : Nat → Except GoogleErr String) (hLast : String → Option ℚ → Option ℚ)
    (g : GState) (a : AudioData) (now : ℚ) (t : String)
    (hm : g.mode = SysMode.sleep)
    (h1 : g.systemSpeaking = false) (h2 : g.isSpeaking = false)
    (h4 : recognizeFromAudio b (some a) 1 = some t)
    (h5 : pyStrip (pyLower t) ≠ "")
    (h6 : wakeHit (pyStrip (pyLower t)) = false) :
    (g.activeMode = true →
      consumeAudio b hLast g a now =
        ({ g with lastActiveCommandTs := now },
         [Event.recognizeCall a, Event.processCall (pyStrip (pyLower t)),
          Event.speak wakeMeFallbackLine])) ∧
    (g.activeMode = false →
      consumeAudio b hLast g a now = (g, [Event.recognizeCall a])) := by
  have ht : t ≠ "" := by
    intro h
    apply h5
    rw [h]
    rfl
  constructor
  · intro ha
    simp [consumeAudio, processCommand, h1, h2, h4, ht, ha, hm, h5]
  · intro ha
    simp [consumeAudio, h1, h2, h4, ht, ha, h6]

/-- Concrete instance of `claim_C8_sleep_rejects_without_dispatch`. -/
theorem claim_C8_witness :
    consumeAudio (bOk "open notepad") hKeep
      { gBase with mode := SysMode.sleep, activeMode := true } 3 500 =
      ({ gBase with mode := SysMode.sleep, activeMode := true, lastActiveCommandTs := 500 },
       [Event.recognizeCall 3, Event.processCall "open notepad",
        Event.speak wakeMeFallbackLine]) := by
  have h := (claim_C8_sleep_rejects_without_dispatch (bOk "open notepad") hKeep
    { gBase with mode := SysMode.sleep, activeMode := true } 3 500 "open notepad"
    rfl rfl rfl rfl (by decide) (by decide)).1 rfl
  exact h

/-- Counterexample to claim C8 as stated: while sleeping and in wake-word
mode, the recognized non-wake utterance "open notepad" is dropped with no
spoken fallback at all (the event trace holds only the recognition call). -/
theorem claim_C8_counterexample_silent_ignore_in_wake_mode :
    wakeHit "open notepad" = false ∧
    ({ gBase with mode := SysMode.sleep, lastInteraction := some 3 } : GState).mode
      = SysMode.sleep ∧
    consumeAudio (bOk "open notepad") hKeep
      { gBase with mode := SysMode.sleep, lastInteraction := some 3 } 3 500 =
      ({ gBase with mode := SysMode.sleep, lastInteraction := some 3 },
       [Event.recognizeCall 3]) := by
  refine ⟨by decide, rfl, rfl⟩

/- ------------------------------------------------------------------
   Claim C9.
   ------------------------------------------------------------------ -/

/-- Exceptions are exhaustively handled in `_recognize_from_audio`: the
exception-explicit embedding always produces an `ok` result. -/
theorem recognizeFromAudioE_ok (n : Nat) (b : Nat → Except GoogleErr String)
    (audio : Option AudioData) :
    recognizeFromAudioE b audio n = Except.ok (recognizeFromAudio b audio n) := by
  induction n generalizing audio with
  | zero =>
    cases audio with
    | none => rfl
    | some a =>
      unfold recognizeFromAudio recognizeFromAudioE
      cases hb : b 0 with
      | ok s => simp [hb]
      | error e => cases e <;> simp [hb]
  | succ r ih =>
    cases audio with
    | none => rfl
    | some a =>
      unfold recognizeFromAudio recognizeFromAudioE
      cases hb : b (r + 1) with
      | ok s => simp [hb]
      | error e => cases e <;> simp [hb, ih]

/-- Claim C9: the recognition adapter never raises — for every backend
behavior, retry budget and audio input the exception-explicit embedding
returns `ok`; a null buffer yields none, and both a no-match
(`UnknownValueError`) and a backend `RequestError` yield none rather than a
propagating exception. -/
theorem claim_C9_recognizer_never_raises (b : Nat → Except GoogleErr String)
    (audio : Option AudioData) (a : AudioData) (n : Nat) :
    recognizeFromAudioE b audio n = Except.ok (recognizeFromAudio b audio n) ∧
    recognizeFromAudio b none n = none ∧
    (b n = Except.error GoogleErr.unknownValueError →
      recognizeFromAudio b (some a) n = none) ∧
    (b n = Except.error GoogleErr.requestError →
      recognizeFromAudio b (some a) n = none) := by
  refine ⟨recognizeFromAudioE_ok n b audio,
    by cases n <;> simp [recognizeFromAudio], ?_, ?_⟩
  · intro h
    unfold recognizeFromAudio
    cases n <;> simp [h]
  · intro h
    unfold recognizeFromAudio
    cases n <;> simp [h]

/-- Concrete instance of `claim_C9_recognizer_never_raises`. -/
theorem claim_C9_witness :
    recognizeFromAudio (fun _ => Except.error GoogleErr.requestError) (some 4) 1 = none :=
  (claim_C9_recognizer_never_raises (fun _ => Except.error GoogleErr.requestError)
    (some 4) 4 1).2.2.2 rfl

/- ------------------------------------------------------------------
   Claim C10.
   ------------------------------------------------------------------ -/

/-- Claim C10 (amended): wake detection is substring containment — the wake
test succeeds exactly when the normalized text contains some configured
wake word, and "jarvis" is itself a wake word, so any text containing
"jarvis" anywhere matches; the first command of the session is produced by
the sequential replace-and-strip loop over `_WAKE_WORDS`; the six bare wake
phrases up through "jarvis" clean to the empty command, and an empty
initial command is never processed.  The claim's universal "a bare wake
phrase yields an empty initial command" fails: "jarvis bolo" and
"jarvis haan" leave the residues "bolo" and "haan" (the loop removes
"jarvis" before reaching them), which are processed as the first command —
see the counterexample. -/
theorem claim_C10_wake_substring_and_cleaning :
    (∀ s, wakeHit s = true ↔ ∃ w ∈ wakeWords, containsStr w s = true) ∧
    ("jarvis" ∈ wakeWords) ∧
    (∀ s, containsStr "jarvis" s = true → wakeHit s = true) ∧
    (["hey jarvis", "ok jarvis", "okay jarvis", "hi jarvis", "hello jarvis",
      "jarvis"].all (fun w => cleanWake w = "") = true) ∧
    cleanWake "jarvis bolo" = "bolo" ∧
    cleanWake "jarvis haan" = "haan" ∧
    (∀ (hLast : String → Option ℚ → Option ℚ) (g : GState) (now : ℚ) (c : String),
      Event.processCall c ∉ (enterActiveCommandMode hLast g "" now).2) := by
  refine ⟨?_, by decide, ?_, by decide, rfl, rfl, ?_⟩
  · intro s
    simp [wakeHit, List.any_eq_true]
  · intro s h
    unfold wakeHit
    rw [List.any_eq_true]
    exact ⟨"jarvis", by decide, h⟩
  · intro hLast g now c
    unfold enterActiveCommandMode
    split <;> simp

/-- Concrete instance of `claim_C10_wake_substring_and_cleaning`. -/
theorem claim_C10_witness :
    wakeHit "play jarvis song" = true :=
  claim_C10_wake_substring_and_cleaning.2.2.1 "play jarvis song" (by decide)

/-- Counterexample to claim C10 as stated: "jarvis bolo" is itself a
configured wake phrase, yet the cleaning loop leaves the nonempty residue
"bolo", and the activation path processes that residue as the first
command of the session. -/
theorem claim_C10_counterexample_jarvis_bolo_residue :
    "jarvis bolo" ∈ wakeWords ∧
    cleanWake "jarvis bolo" = "bolo" ∧
    Event.processCall "bolo" ∈
      (enterActiveCommandMode hKeep gBase (cleanWake "jarvis bolo") 60).2 := by
  refine ⟨by decide, rfl, by decide⟩

end Jarvis
